import Mathlib

/-!
Shallow embedding of `src/server.js` (an Express backend with two routes,
`/api/generate-quiz` and `/api/evaluate-quiz`) for checking the repository's
natural-language specification.

JavaScript values that can occur in a request or response body (the result of
`JSON.parse`, plus `undefined` for absent fields) are modelled by `JSValue`.
Numbers are modelled as integers: every numeric value reaching the handlers in
scope here comes from parsed JSON integers (answer indices, correct indices,
HTTP statuses); NaN and non-integral doubles play no role.  Property access is
modelled for own properties of JSON-derived data; prototype-chain properties
(such as array methods) are not modelled, and no key computed by the handlers
resolves to one on the data in scope.  Two objects or arrays originating at
distinct nodes of a parsed JSON document are never reference-equal in
JavaScript, so strict equality on them is modelled as `false`.
-/

namespace QuizServer

/-- JavaScript values as they occur in JSON request/response bodies, plus
`undefined` for absent properties. -/
inductive JSValue where
  | undefined : JSValue
  | null : JSValue
  | bool : Bool → JSValue
  | num : Int → JSValue
  | str : String → JSValue
  | arr : List JSValue → JSValue
  | obj : List (String × JSValue) → JSValue
deriving Repr

namespace JSValue

/-- JavaScript truthiness (`undefined`, `null`, `false`, `0` and `""` are
falsy; objects and arrays are always truthy). -/
def truthy : JSValue → Bool
  | .undefined => false
  | .null => false
  | .bool b => b
  | .num n => n != 0
  | .str s => s != ""
  | .arr _ => true
  | .obj _ => true

/-- The JavaScript `a || b` expression: `a` if truthy, otherwise `b`. -/
def jsOr (a b : JSValue) : JSValue :=
  if a.truthy then a else b

/-- JavaScript strict equality `===` restricted to JSON-derived data: equal
primitives of the same type compare equal; objects and arrays compare by
reference, and distinct nodes of a parsed document are never identical, so
those cases are `false`. -/
def strictEq : JSValue → JSValue → Bool
  | .undefined, .undefined => true
  | .null, .null => true
  | .bool a, .bool b => a == b
  | .num a, .num b => a == b
  | .str a, .str b => a == b
  | _, _ => false

end JSValue

/-- A canonical decimal numeral (no sign, no leading zero except `"0"`
itself), as required for a string key to act as a JavaScript array index. -/
def canonicalNat? (s : String) : Option Nat :=
  let cs := s.toList
  if cs ≠ [] ∧ cs.all Char.isDigit ∧ (cs = ['0'] ∨ cs.head? ≠ some '0') then
    some (cs.foldl (fun acc c => acc * 10 + (c.toNat - 48)) 0)
  else none

/-- Lookup of an own property in an object literal (JSON objects have unique
keys, so first match suffices); `undefined` when absent. -/
def objLookup (fields : List (String × JSValue)) (key : String) : JSValue :=
  match fields.find? (fun p => p.1 == key) with
  | some p => p.2
  | none => .undefined

/-- JavaScript string conversion (`ToString`) of a JSON-derived value, as used
for property keys: arrays join their elements with `","` rendering `null` and
`undefined` elements as empty, plain objects render as `"[object Object]"`. -/
def jsToStr : JSValue → String
  | .undefined => "undefined"
  | .null => "null"
  | .bool true => "true"
  | .bool false => "false"
  | .num n => toString n
  | .str s => s
  | .obj _ => "[object Object]"
  | .arr xs => String.intercalate "," (xs.attach.map fun x =>
      match x with
      | ⟨.undefined, _⟩ => ""
      | ⟨.null, _⟩ => ""
      | ⟨v, _⟩ => jsToStr v)

/-- Property access `v[key]` with a string key on a non-null base: own
properties of objects; canonical numeric indices and `length` on arrays and
strings; `undefined` on other primitives. -/
def strKeyGet (v : JSValue) (key : String) : JSValue :=
  match v with
  | .obj fields => objLookup fields key
  | .arr xs =>
    if key = "length" then .num xs.length
    else
      match canonicalNat? key with
      | some i => xs.getD i .undefined
      | none => .undefined
  | .str s =>
    if key = "length" then .num s.length
    else
      match canonicalNat? key with
      | some i =>
        match s.toList.get? i with
        | some c => .str (String.singleton c)
        | none => .undefined
      | none => .undefined
  | _ => .undefined

/-- Element access `v[i]` with a nonnegative number key on a non-null base
(the number key converts to its canonical decimal string, which on arrays and
strings selects the element at that position). -/
def natIdxGet (v : JSValue) (i : Nat) : JSValue :=
  match v with
  | .obj fields => objLookup fields (toString i)
  | .arr xs => xs.getD i .undefined
  | .str s =>
    match s.toList.get? i with
    | some c => .str (String.singleton c)
    | none => .undefined
  | _ => .undefined

/-- Computed property access `v[k]` where the key is itself a value, as in
`options[userAnsIndex]`: number keys use element access, every other key is
converted to a string with `ToString`. -/
def propKeyGet (v : JSValue) (k : JSValue) : JSValue :=
  match k with
  | .num n => if 0 ≤ n then natIdxGet v n.toNat else strKeyGet v (toString n)
  | _ => strKeyGet v (jsToStr k)

/-- One entry of the `feedback` array built by the evaluate route. -/
structure FeedbackItem where
  question : JSValue
  userAnswer : JSValue
  correctAnswer : JSValue
  isCorrect : Bool
  explanation : JSValue
deriving Repr

/-- The success body of the evaluate route:
`{ score, total, feedback }`. -/
structure ScoreReport where
  score : Nat
  total : Nat
  feedback : List FeedbackItem
deriving Repr

/-- Outcome of one call to the evaluate route: the 400 guard response, an
uncaught `TypeError` escaping the handler, or the 200 report. -/
inductive EvalResult where
  | badRequest (msg : String)
  | typeError
  | ok (report : ScoreReport)
deriving Repr

/-- The message of the evaluate route's 400 response (server.js line 123). -/
def missingInputMsg : String := "Missing quiz data or user answers."

/-- The body of the `questions.forEach` callback (server.js lines 132-152):
scores one question and builds its feedback entry.  `none` models the
`TypeError` thrown when the entry is `null` or `undefined` and a property of
it is read. -/
def scoreQuestion (userAnswers : JSValue) (idx : Nat) (question : JSValue) :
    Option (FeedbackItem × Bool) :=
  match question with
  | .null => none
  | .undefined => none
  | q =>
    let correctIndex := (strKeyGet q "correctIndex").jsOr (.num 0)
    let userAnsIndex := natIdxGet userAnswers idx
    let isCorrect := correctIndex.strictEq userAnsIndex
    let options := (strKeyGet q "options").jsOr (.arr [])
    some
      ({ question := (strKeyGet q "question").jsOr (.str "Question text missing")
         userAnswer := (propKeyGet options userAnsIndex).jsOr (.str "No answer provided")
         correctAnswer := (propKeyGet options correctIndex).jsOr (.str "Correct answer missing")
         isCorrect := isCorrect
         explanation := (strKeyGet q "explanation").jsOr (.str "No explanation provided.") },
       isCorrect)

/-- The `questions.forEach` loop of the evaluate route, accumulating the score
and the feedback list from position `idx` on; `none` models an uncaught
`TypeError` from some iteration. -/
def runLoop (userAnswers : JSValue) : Nat → List JSValue → Option (Nat × List FeedbackItem)
  | _, [] => some (0, [])
  | idx, q :: qs =>
    match scoreQuestion userAnswers idx q with
    | none => none
    | some (fb, correct) =>
      match runLoop userAnswers (idx + 1) qs with
      | none => none
      | some (s, fbs) => some ((if correct then 1 else 0) + s, fb :: fbs)

/-- The `/api/evaluate-quiz` handler (server.js lines 119-159).  The falsiness
guard yields the 400 response; `questions` is resolved by
`quizData.questions || quizData`; calling `forEach` on a non-array value is
the uncaught `TypeError` case. -/
def evaluateQuiz (quizData userAnswers : JSValue) : EvalResult :=
  if !quizData.truthy || !userAnswers.truthy then
    .badRequest missingInputMsg
  else
    let questions := (strKeyGet quizData "questions").jsOr quizData
    match questions with
    | .arr qs =>
      match runLoop userAnswers 0 qs with
      | none => .typeError
      | some (score, feedback) => .ok ⟨score, qs.length, feedback⟩
    | _ => .typeError

/-! ## The generate route

`/api/generate-quiz` (server.js lines 20-111).  The handler first checks the
`GEMINI_API_KEY` environment value, then performs the `axios.post` call to the
external service; the outcome of that call is a value of `AxiosOutcome`.  The
JavaScript builtin `JSON.parse` is an external primitive of the language
runtime, modelled by an explicit function argument `jsonParse` (covering its
implicit `ToString` coercion of a non-string argument): `some v` is a
successful parse and `none` a thrown `SyntaxError`. -/

/-- Outcome of the `axios.post` call: a 2xx response carrying the parsed body
(`geminiResponse.data`), a non-2xx response (`error.response` set, carrying
status and parsed body), a transport failure with no response
(`error.request` set), or a failure to set up the request. -/
inductive AxiosOutcome where
  | success (respData : JSValue)
  | httpError (status : Nat) (data : JSValue)
  | networkError
  | requestSetupError
deriving Repr

/-- Outcome of one call to the generate route: the 200 body passed to
`res.json`, an error response with HTTP status and `error` message, or an
exception escaping the handler (a `TypeError` thrown inside the `catch`
block). -/
inductive GenResult where
  | ok (body : JSValue)
  | errorResponse (status : Nat) (msg : String)
  | crash
deriving Repr

/-- The message of the pre-flight configuration failure (server.js line 29). -/
def configErrorMsg : String :=
  "Server configuration error: API key is missing or not set. Please update backend/.env"

/-- The message sent when the upstream 400 body says the key is invalid
(server.js line 99). -/
def invalidKeyMsg : String := "Failed to generate quiz. Your API key is not valid."

/-- The message of the catch-all failure response (server.js line 109). -/
def genericFailureMsg : String := "Failed to generate quiz. An error occurred on the server."

/-- Whether `needle` occurs at the start of `haystack`. -/
def startsWithList : List Char → List Char → Bool
  | _, [] => true
  | [], _ :: _ => false
  | x :: xs, y :: ys => x == y && startsWithList xs ys

/-- Whether `needle` occurs anywhere in `haystack`. -/
def containsList (haystack needle : List Char) : Bool :=
  match haystack with
  | [] => needle.isEmpty
  | x :: xs => startsWithList (x :: xs) needle || containsList xs needle

/-- The JavaScript `s.includes(sub)` test: `true` exactly when `sub` occurs as
a contiguous substring of `s` (the literals used by the handler are ASCII, so
code units coincide with characters). -/
def strIncludes (s sub : String) : Bool := containsList s.toList sub.toList

/-- The API-key guard (server.js line 27): the key read from the environment
is absent or empty (`!apiKey`), equals the placeholder, or contains `"!!!"`. -/
def apiKeyInvalid (apiKey : Option String) : Bool :=
  match apiKey with
  | none => true
  | some k => k == "" || k == "paste_your_long_api_key_here" || strIncludes k "!!!"

/-- Property access `v.key` as an expression that can throw: `none` models the
`TypeError` raised when the base is `null` or `undefined`. -/
def jsAccess (v : JSValue) (key : String) : Option JSValue :=
  match v with
  | .null => none
  | .undefined => none
  | v => some (strKeyGet v key)

/-- Element access `v[i]` as an expression that can throw: `none` models the
`TypeError` raised when the base is `null` or `undefined`. -/
def jsAccessIdx (v : JSValue) (i : Nat) : Option JSValue :=
  match v with
  | .null => none
  | .undefined => none
  | v => some (natIdxGet v i)

/-- The extraction `geminiResponse.data.candidates[0].content.parts[0].text`
(server.js line 78); `none` models a `TypeError` thrown during the chain
(caught by the handler's `catch`). -/
def extractText (respData : JSValue) : Option JSValue :=
  (jsAccess respData "candidates").bind fun cands =>
  (jsAccessIdx cands 0).bind fun c0 =>
  (jsAccess c0 "content").bind fun content =>
  (jsAccess content "parts").bind fun parts =>
  (jsAccessIdx parts 0).bind fun p0 =>
  jsAccess p0 "text"

/-- The `error.response.data.error.message.includes("API key not valid")` test
of the catch block (server.js line 98), with the `TypeError` cases (absent
`data.error` or `message`, or a `message` without an `includes` method)
modelled as `none`; an array `message` uses `Array.prototype.includes`, which
can only match a string element. -/
def invalidKeyMessage? (data : JSValue) : Option Bool :=
  (jsAccess data "error").bind fun errObj =>
  (jsAccess errObj "message").bind fun msgVal =>
  match msgVal with
  | .str s => some (strIncludes s "API key not valid")
  | .arr xs => some (xs.any fun x =>
      match x with
      | .str s => s == "API key not valid"
      | _ => false)
  | _ => none

/-- The `/api/generate-quiz` handler (server.js lines 20-111): the pre-flight
key guard, then the external call; on a 2xx response the text payload is
extracted and `JSON.parse`d and the parsed value is sent back verbatim with
`res.json(quizJson)`; every exception thrown inside the `try` (extraction
`TypeError` or parse `SyntaxError`) reaches the `catch`, whose only specific
case is an upstream 400 whose body message marks the key invalid; everything
else falls through to the generic 500 response. -/
def generateQuiz (apiKey : Option String) (outcome : AxiosOutcome)
    (jsonParse : JSValue → Option JSValue) : GenResult :=
  if apiKeyInvalid apiKey then .errorResponse 500 configErrorMsg
  else
    match outcome with
    | .success respData =>
      match extractText respData with
      | none => .errorResponse 500 genericFailureMsg
      | some t =>
        match jsonParse t with
        | none => .errorResponse 500 genericFailureMsg
        | some quizJson => .ok quizJson
    | .httpError status data =>
      if status = 400 then
        match invalidKeyMessage? data with
        | none => .crash
        | some true => .errorResponse 500 invalidKeyMsg
        | some false => .errorResponse 500 genericFailureMsg
      else .errorResponse 500 genericFailureMsg
    | .networkError => .errorResponse 500 genericFailureMsg
    | .requestSetupError => .errorResponse 500 genericFailureMsg

/-! ## Shapes of question entries, and sample data -/

/-- A question entry in canonical shape: an object whose stored `correctIndex`
is a number that is a valid index into its stored `options` array. -/
def validQuestion (q : JSValue) : Prop :=
  ∃ (fields : List (String × JSValue)) (c : Nat) (opts : List JSValue),
    q = .obj fields ∧
    objLookup fields "correctIndex" = .num (c : Int) ∧
    objLookup fields "options" = .arr opts ∧
    c < opts.length

/-- A question entry that is an object whose `options` field, if truthy, is
not a plain object (in the spec's data model `options` is an array of
strings). -/
def questionLike (q : JSValue) : Prop :=
  (∃ fields, q = .obj fields) ∧ (∀ fields2, strKeyGet q "options" ≠ .obj fields2)

/-- A well-shaped external-service response body whose single text part is
`payload`, mirroring the path `candidates[0].content.parts[0].text`. -/
def sampleRespData (payload : JSValue) : JSValue :=
  .obj [("candidates", .arr [.obj [("content",
    .obj [("parts", .arr [.obj [("text", payload)]])])]])]

/-- The one-question quiz used by the spec's concrete scenarios. -/
def arithmeticQuestion : JSValue :=
  .obj [("question", .str "2+2?"),
        ("options", .arr [.str "3", .str "4", .str "5", .str "6"]),
        ("correctIndex", .num 1),
        ("explanation", .str "Basic arithmetic")]

/-! ## Helper lemmas -/

lemma truthy_ne_undefined {v : JSValue} (h : v.truthy = true) : v ≠ .undefined := by
  cases v <;> simp_all [JSValue.truthy]

lemma truthy_ne_null {v : JSValue} (h : v.truthy = true) : v ≠ .null := by
  cases v <;> simp_all [JSValue.truthy]

lemma jsOr_of_truthy {a : JSValue} (b : JSValue) (h : a.truthy = true) : a.jsOr b = a := by
  simp [JSValue.jsOr, h]

lemma jsOr_of_falsy {a : JSValue} (b : JSValue) (h : a.truthy = false) : a.jsOr b = b := by
  simp [JSValue.jsOr, h]

lemma jsOr_num_zero (m : Int) : (JSValue.num m).jsOr (.num 0) = .num m := by
  by_cases h : m = 0 <;> simp [JSValue.jsOr, JSValue.truthy, h]

lemma strictEq_undef_right {v : JSValue} (h : v ≠ .undefined) : v.strictEq .undefined = false := by
  cases v <;> simp_all [JSValue.strictEq]

lemma strictEq_num_self (n : Int) : (JSValue.num n).strictEq (.num n) = true := by
  simp [JSValue.strictEq]

lemma objLookup_cons_hit (k : String) (v : JSValue) (rest : List (String × JSValue)) :
    objLookup ((k, v) :: rest) k = v := by
  simp [objLookup, List.find?_cons_of_pos]

lemma canonicalNat?_undefined : canonicalNat? "undefined" = none := by decide

lemma strKeyGet_of_not_obj {v : JSValue} (h : ∀ fields, v ≠ .obj fields) :
    strKeyGet v "undefined" = .undefined := by
  cases v <;> simp_all [strKeyGet, canonicalNat?_undefined]

lemma getD_all_undefined {l : List JSValue} (h : ∀ x ∈ l, x = .undefined) (i : Nat) :
    l.getD i .undefined = .undefined := by
  induction l generalizing i with
  | nil => simp
  | cons x xs ih =>
    cases i with
    | zero => simpa using h x (by simp)
    | succ n => exact ih (fun y hy => h y (by simp [hy])) n

lemma getD_map_of_get? (f : JSValue → JSValue) :
    ∀ (l : List JSValue) (j : Nat) (q : JSValue), l[j]? = some q →
      (l.map f).getD j .undefined = f q := by
  intro l
  induction l with
  | nil => intro j q h; simp at h
  | cons x xs ih =>
    intro j q h
    cases j with
    | zero => simp at h; simp [h]
    | succ n => simp at h; simpa using ih n q h

/-- Unfolding of `scoreQuestion` on an object entry. -/
lemma scoreQuestion_obj (ua : JSValue) (idx : Nat) (fields : List (String × JSValue)) :
    scoreQuestion ua idx (.obj fields) =
      some
        ({ question := (objLookup fields "question").jsOr (.str "Question text missing")
           userAnswer := (propKeyGet ((objLookup fields "options").jsOr (.arr []))
               (natIdxGet ua idx)).jsOr (.str "No answer provided")
           correctAnswer := (propKeyGet ((objLookup fields "options").jsOr (.arr []))
               ((objLookup fields "correctIndex").jsOr (.num 0))).jsOr (.str "Correct answer missing")
           isCorrect := ((objLookup fields "correctIndex").jsOr (.num 0)).strictEq (natIdxGet ua idx)
           explanation := (objLookup fields "explanation").jsOr (.str "No explanation provided.") },
         ((objLookup fields "correctIndex").jsOr (.num 0)).strictEq (natIdxGet ua idx)) := rfl

/-- If every question is valid and the answer list holds, position by position
(offset by `idx`), exactly each question's stored `correctIndex`, the loop
counts every question as correct. -/
lemma runLoop_allCorrect (l : List JSValue) :
    ∀ (idx : Nat) (qs : List JSValue),
      (∀ q ∈ qs, validQuestion q) →
      (∀ (j : Nat) (q : JSValue), qs[j]? = some q →
        l.getD (idx + j) .undefined = strKeyGet q "correctIndex") →
      ∃ fbs, runLoop (.arr l) idx qs = some (qs.length, fbs) := by
  intro idx qs
  induction qs generalizing idx with
  | nil => exact fun _ _ => ⟨[], rfl⟩
  | cons q qs ih =>
    intro hwf hans
    obtain ⟨fields, c, opts, hq, hci, hopts, hlt⟩ := hwf q (by simp)
    have hua : natIdxGet (.arr l) idx = .num (c : Int) := by
      have h0 := hans 0 q (by simp)
      rw [Nat.add_zero, hq] at h0
      simp only [natIdxGet]
      rw [h0]
      simp [strKeyGet, hci]
    obtain ⟨fbs, hrl⟩ := ih (idx + 1)
      (fun q2 hq2 => hwf q2 (List.mem_cons_of_mem _ hq2))
      (fun j q2 hj => by
        have h2 := hans (j + 1) q2 (by simpa using hj)
        rwa [show idx + (j + 1) = idx + 1 + j by omega] at h2)
    have hsq : ∃ fb, scoreQuestion (.arr l) idx q = some (fb, true) := by
      rw [hq, scoreQuestion_obj, hci, jsOr_num_zero, hua, strictEq_num_self]
      exact ⟨_, rfl⟩
    obtain ⟨fb, hsq⟩ := hsq
    refine ⟨fb :: fbs, ?_⟩
    simp only [runLoop, hsq, hrl, List.length_cons]
    norm_num [Nat.add_comm]

/-- If every answer element is `undefined` and every question is an object
with a non-object `options` field, the loop scores nothing and every feedback
entry carries the placeholder answer text. -/
lemma runLoop_unanswered (l : List JSValue) (hl : ∀ x ∈ l, x = .undefined) :
    ∀ (idx : Nat) (qs : List JSValue), (∀ q ∈ qs, questionLike q) →
      ∃ fbs, runLoop (.arr l) idx qs = some (0, fbs) ∧
        fbs.length = qs.length ∧
        ∀ fb ∈ fbs, fb.userAnswer = .str "No answer provided" := by
  intro idx qs
  induction qs generalizing idx with
  | nil => exact fun _ => ⟨[], rfl, rfl, by simp⟩
  | cons q qs ih =>
    intro hq
    obtain ⟨⟨fields, hfq⟩, hopts⟩ := hq q (by simp)
    obtain ⟨fbs, hrl, hlen, hfb⟩ := ih (idx + 1) (fun q2 h2 => hq q2 (List.mem_cons_of_mem _ h2))
    have hua : natIdxGet (.arr l) idx = .undefined := by
      simp only [natIdxGet]; exact getD_all_undefined hl idx
    have hcorrect : ((objLookup fields "correctIndex").jsOr (.num 0)).strictEq .undefined = false := by
      apply strictEq_undef_right
      by_cases h : (objLookup fields "correctIndex").truthy
      · rw [jsOr_of_truthy _ h]; exact truthy_ne_undefined h
      · rw [jsOr_of_falsy _ (by simpa using h)]; simp
    have hopts2 : ∀ f2, (objLookup fields "options").jsOr (.arr []) ≠ .obj f2 := by
      intro f2
      by_cases h : (objLookup fields "options").truthy
      · rw [jsOr_of_truthy _ h]
        have h3 := hopts f2
        rw [hfq] at h3
        simpa [strKeyGet] using h3
      · rw [jsOr_of_falsy _ (by simpa using h)]; simp
    have huser : (propKeyGet ((objLookup fields "options").jsOr (.arr []))
        JSValue.undefined).jsOr (.str "No answer provided") = .str "No answer provided" := by
      have h4 : propKeyGet ((objLookup fields "options").jsOr (.arr [])) JSValue.undefined =
          .undefined := by
        simp only [propKeyGet]
        have h5 : jsToStr JSValue.undefined = "undefined" := by simp [jsToStr]
        rw [h5]
        exact strKeyGet_of_not_obj hopts2
      rw [h4]
      rfl
    have hsq : ∃ fb, scoreQuestion (.arr l) idx q = some (fb, false) ∧
        fb.userAnswer = .str "No answer provided" := by
      rw [hfq, scoreQuestion_obj, hua, hcorrect]
      exact ⟨_, rfl, huser⟩
    obtain ⟨fb, hsq, hfbu⟩ := hsq
    refine ⟨fb :: fbs, ?_, by simp [hlen], ?_⟩
    · simp only [runLoop, hsq, hrl]
      norm_num
    · intro fb2 h2
      rcases List.mem_cons.1 h2 with h2 | h2
      · rw [h2]; exact hfbu
      · exact hfb fb2 h2

/-- Scoring a question entry only throws when the entry is `null` or
`undefined`. -/
lemma scoreQuestion_isSome {q : JSValue} (hnull : q ≠ .null) (hnotu : q ≠ .undefined)
    (ua : JSValue) (idx : Nat) : (scoreQuestion ua idx q).isSome := by
  cases q <;> simp_all [scoreQuestion]

/-- The scoring loop completes whenever no entry is `null` or `undefined`. -/
lemma runLoop_total (ua : JSValue) :
    ∀ (idx : Nat) (qs : List JSValue), (∀ q ∈ qs, q ≠ .null ∧ q ≠ .undefined) →
      ∃ p, runLoop ua idx qs = some p := by
  intro idx qs
  induction qs generalizing idx with
  | nil => exact fun _ => ⟨(0, []), rfl⟩
  | cons q qs ih =>
    intro h
    obtain ⟨h1, h2⟩ := h q (by simp)
    obtain ⟨⟨fb, c⟩, hsq⟩ := Option.isSome_iff_exists.1 (scoreQuestion_isSome h1 h2 ua idx)
    obtain ⟨⟨s, fbs⟩, hrl⟩ := ih (idx + 1) (fun q2 hq2 => h q2 (List.mem_cons_of_mem _ hq2))
    exact ⟨((if c then 1 else 0) + s, fb :: fbs), by simp [runLoop, hsq, hrl]⟩

/-! ## Claim C1 -/

/-- C1, counterexample: a transport success whose text payload fails to parse
produces exactly the same generic 500 failure response as a transport failure
with no response at all — there is no distinct error kind for unparsable
payloads, refuting the claim that the generate operation fails with a
dedicated `MalformedResponseError`. -/
theorem c1_parse_failure_same_as_transport_failure :
    generateQuiz (some "AIzaTestKey") (.success (sampleRespData (.str "not valid json")))
      (fun _ => none) = .errorResponse 500 genericFailureMsg ∧
    generateQuiz (some "AIzaTestKey") .networkError (fun _ => none) =
      .errorResponse 500 genericFailureMsg := ⟨rfl, rfl⟩

/-- C1, amended: with a valid key, a successfully extracted text payload whose
parse fails makes the generate operation answer with the generic 500 failure
response (the same one used for transport failures), not with a distinct
malformed-response error kind. -/
theorem c1_parse_failure_yields_generic_error (apiKey : Option String) (resp t : JSValue)
    (jsonParse : JSValue → Option JSValue)
    (hkey : apiKeyInvalid apiKey = false) (hext : extractText resp = some t)
    (hparse : jsonParse t = none) :
    generateQuiz apiKey (.success resp) jsonParse = .errorResponse 500 genericFailureMsg := by
  simp [generateQuiz, hkey, hext, hparse]

/-- C1, witness: the amended theorem at a concrete key, response and failing
parse. -/
theorem c1_parse_failure_yields_generic_error_witness :
    generateQuiz (some "testkey123") (.success (sampleRespData (.str "oops")))
      (fun _ => none) = .errorResponse 500 genericFailureMsg :=
  c1_parse_failure_yields_generic_error (some "testkey123") (sampleRespData (.str "oops"))
    (.str "oops") (fun _ => none) rfl rfl rfl

/-! ## Claim C2 -/

/-- C2, counterexample: a question whose stored `correctIndex` is `5`, out of
range for its two options, is *not* scored as if the correct index were 0:
the learner answer `5` is marked correct and scores the point, whereas the
same quiz with `correctIndex` 0 (what the claim predicts the scoring should
behave like) marks answer `5` incorrect. -/
theorem c2_out_of_range_correctIndex_not_defaulted :
    (∃ fb, evaluateQuiz
        (.obj [("questions", .arr [.obj [("options", .arr [.str "a", .str "b"]),
          ("correctIndex", .num 5)]])])
        (.arr [.num 5]) = .ok ⟨1, 1, [fb]⟩ ∧ fb.isCorrect = true) ∧
    (∃ fb, evaluateQuiz
        (.obj [("questions", .arr [.obj [("options", .arr [.str "a", .str "b"]),
          ("correctIndex", .num 0)]])])
        (.arr [.num 5]) = .ok ⟨0, 1, [fb]⟩ ∧ fb.isCorrect = false) :=
  ⟨⟨_, rfl, rfl⟩, ⟨_, rfl, rfl⟩⟩

/-- C2, amended: a question entry whose stored `correctIndex` is falsy (in
particular omitted) does not crash the evaluate operation and is scored as if
the correct index were 0: the answer `a` is marked correct exactly when it is
the number 0.  (Out-of-range truthy values are compared as stored, see the
counterexample.) -/
theorem c2_falsy_correctIndex_scored_as_zero (fields : List (String × JSValue)) (a : Nat)
    (hfalsy : (objLookup fields "correctIndex").truthy = false) :
    ∃ fb, evaluateQuiz (.obj [("questions", .arr [.obj fields])]) (.arr [.num (a : Int)]) =
        .ok ⟨if a = 0 then 1 else 0, 1, [fb]⟩ ∧ fb.isCorrect = decide (a = 0) := by
  have hua : natIdxGet (.arr [JSValue.num (a : Int)]) 0 = .num (a : Int) := rfl
  have hci : (objLookup fields "correctIndex").jsOr (.num 0) = .num 0 := jsOr_of_falsy _ hfalsy
  have heq : (JSValue.num 0).strictEq (.num (a : Int)) = decide (a = 0) := by
    by_cases h : a = 0
    · simp [JSValue.strictEq, h]
    · simp [JSValue.strictEq, h]
      omega
  have hsq : ∃ fb, scoreQuestion (.arr [JSValue.num (a : Int)]) 0 (.obj fields) =
      some (fb, decide (a = 0)) ∧ fb.isCorrect = decide (a = 0) := by
    rw [scoreQuestion_obj, hci, hua, heq]
    exact ⟨_, rfl, rfl⟩
  obtain ⟨fb, hsq, hfb⟩ := hsq
  refine ⟨fb, ?_, hfb⟩
  have hqk : strKeyGet (.obj [("questions", .arr [.obj fields])]) "questions" =
      .arr [.obj fields] := by
    simp only [strKeyGet]; exact objLookup_cons_hit _ _ _
  simp only [evaluateQuiz, JSValue.truthy, Bool.not_true, Bool.or_self, if_false, hqk,
    jsOr_of_truthy _ (show (JSValue.arr [JSValue.obj fields]).truthy = true from rfl)]
  simp only [runLoop, hsq]
  by_cases h : a = 0 <;> simp [h]

/-- C2, witness: the amended theorem at a question with `correctIndex`
omitted and learner answer 3, which is scored against correct index 0. -/
theorem c2_falsy_correctIndex_scored_as_zero_witness :
    ∃ fb, evaluateQuiz
        (.obj [("questions", .arr [.obj [("options", .arr [.str "x", .str "y"])]])])
        (.arr [.num 3]) = .ok ⟨0, 1, [fb]⟩ ∧ fb.isCorrect = false :=
  c2_falsy_correctIndex_scored_as_zero [("options", .arr [.str "x", .str "y"])] 3 rfl

/-! ## Claim C3 -/

/-- C3, counterexample: both inputs present (truthy) — an object quiz payload
with no `questions` array and an empty answers array — yet the evaluate
operation raises an uncaught `TypeError` (`questions.forEach` is not a
function) instead of returning a structured result, refuting the claim that
present inputs never raise an unhandled error. -/
theorem c3_present_inputs_type_error :
    evaluateQuiz (.obj []) (.arr []) = .typeError ∧
    (JSValue.obj []).truthy = true ∧ (JSValue.arr []).truthy = true := ⟨rfl, rfl, rfl⟩

/-- C3, amended: the evaluate operation answers the missing-input 400 error
exactly when `quizData` or `userAnswers` is falsy (absent, null, false, 0 or
the empty string); and for any inputs whose resolved questions value
(`quizData.questions || quizData`) is an array with no null or undefined
entries, no `TypeError` escapes the handler. -/
theorem c3_guard_iff_falsy_and_structured_on_array (qd ua : JSValue) :
    (evaluateQuiz qd ua = .badRequest missingInputMsg ↔
      (qd.truthy = false ∨ ua.truthy = false)) ∧
    ((∃ qs, (strKeyGet qd "questions").jsOr qd = .arr qs ∧ ∀ q ∈ qs, q ≠ .null ∧ q ≠ .undefined) →
      evaluateQuiz qd ua ≠ .typeError) := by
  constructor
  · constructor
    · intro h
      cases hqd : qd.truthy with
      | false => exact Or.inl rfl
      | true =>
        cases hua : ua.truthy with
        | false => exact Or.inr rfl
        | true =>
          exfalso
          simp only [evaluateQuiz, hqd, hua, Bool.not_true, Bool.or_self, if_false] at h
          rcases hx : (strKeyGet qd "questions").jsOr qd with _ | _ | b | n | s | qs | fs <;>
            rw [hx] at h <;> simp at h
          rcases hr : runLoop ua 0 qs with _ | ⟨s2, fbs⟩ <;> (rw [hr] at h; simp at h)
    · intro h
      rcases h with h | h <;> simp [evaluateQuiz, h]
  · rintro ⟨qs, hqs, hen⟩
    cases hqd : qd.truthy with
    | false => simp [evaluateQuiz, hqd]
    | true =>
      cases hua : ua.truthy with
      | false => simp [evaluateQuiz, hua]
      | true =>
        obtain ⟨⟨s, fbs⟩, hrl⟩ := runLoop_total ua 0 qs hen
        simp only [evaluateQuiz, hqd, hua, Bool.not_true, Bool.or_self, if_false, hqs, hrl]
        simp

/-- C3, witness: the amended theorem's structured-result part at a bare-array
quiz with one object entry and an empty answers array. -/
theorem c3_guard_iff_falsy_and_structured_on_array_witness :
    evaluateQuiz (.arr [.obj []]) (.arr []) ≠ .typeError :=
  (c3_guard_iff_falsy_and_structured_on_array (.arr [.obj []]) (.arr [])).2
    ⟨[.obj []], rfl, by simp⟩

/-! ## Claim C4 -/

/-- C4, counterexample: the generate operation performs no normalization of
the parsed reply.  A payload that is neither a bare array of questions nor an
object wrapping one (the number 5) is returned as a 200 success rather than
rejected, and a wrapped question with no `explanation` field is returned
verbatim with the field still absent rather than defaulted to the empty
string. -/
theorem c4_generate_no_normalization :
    generateQuiz (some "AIzaTestKey") (.success (sampleRespData (.str "5")))
      (fun _ => some (.num 5)) = .ok (.num 5) ∧
    generateQuiz (some "AIzaTestKey") (.success (sampleRespData (.str "quiz")))
      (fun _ => some (.obj [("questions", .arr [.obj [("question", .str "q")]])])) =
      .ok (.obj [("questions", .arr [.obj [("question", .str "q")]])]) ∧
    strKeyGet (.obj [("question", .str "q")]) "explanation" = .undefined := ⟨rfl, rfl, rfl⟩

/-- C4, amended: whatever JSON value the external reply's text payload parses
to, the generate operation returns it verbatim with `res.json` — no shape
check and no per-question defaulting is applied on the generate side. -/
theorem c4_generate_passthrough (apiKey : Option String) (resp t v : JSValue)
    (jsonParse : JSValue → Option JSValue)
    (hkey : apiKeyInvalid apiKey = false) (hext : extractText resp = some t)
    (hparse : jsonParse t = some v) :
    generateQuiz apiKey (.success resp) jsonParse = .ok v := by
  simp [generateQuiz, hkey, hext, hparse]

/-- C4, witness: the amended theorem at a concrete key, response and parse
result. -/
theorem c4_generate_passthrough_witness :
    generateQuiz (some "testkey456") (.success (sampleRespData (.str "[]")))
      (fun _ => some (.arr [])) = .ok (.arr []) :=
  c4_generate_passthrough (some "testkey456") (sampleRespData (.str "[]")) (.str "[]")
    (.arr []) (fun _ => some (.arr [])) rfl rfl rfl

/-! ## Claim C5 -/

/-- C5: for a quiz whose questions all carry a numeric `correctIndex` that is
a valid index into their own options, evaluating against the all-correct
answer list (position `i` answers with question `i`'s stored `correctIndex`)
yields a report whose score equals its total. -/
theorem c5_all_correct_answers_score_eq_total (qs : List JSValue)
    (hwf : ∀ q ∈ qs, validQuestion q) :
    ∃ fbs, evaluateQuiz (.obj [("questions", .arr qs)])
      (.arr (qs.map fun q => strKeyGet q "correctIndex")) = .ok ⟨qs.length, qs.length, fbs⟩ := by
  obtain ⟨fbs, hrl⟩ := runLoop_allCorrect (qs.map fun q => strKeyGet q "correctIndex") 0 qs hwf
    (fun j q hj => by rw [Nat.zero_add]; exact getD_map_of_get? _ qs j q hj)
  refine ⟨fbs, ?_⟩
  have hq : strKeyGet (.obj [("questions", .arr qs)]) "questions" = .arr qs := by
    simp only [strKeyGet]; exact objLookup_cons_hit _ _ _
  simp only [evaluateQuiz, JSValue.truthy, Bool.not_true, Bool.or_self, if_false, hq,
    jsOr_of_truthy _ (show (JSValue.arr qs).truthy = true from rfl), hrl]
  simp

/-- C5, witness: the theorem at the spec's one-question quiz, whose
all-correct answer list is `[1]`, scoring 1 of 1. -/
theorem c5_all_correct_answers_score_eq_total_witness :
    ∃ fbs, evaluateQuiz (.obj [("questions", .arr [arithmeticQuestion])])
      (.arr [.num 1]) = .ok ⟨1, 1, fbs⟩ := by
  have h := c5_all_correct_answers_score_eq_total [arithmeticQuestion] (by
    intro q hq
    rw [List.mem_singleton] at hq
    subst hq
    exact ⟨_, 1, _, rfl, rfl, rfl, by decide⟩)
  exact h

/-! ## Claim C6 -/

/-- C6: the evaluate operation is deterministic — it is a pure function of
its two request fields, so identical inputs produce identical reports (the
embedded handler performs no I/O and reads no state besides its inputs). -/
theorem c6_evaluate_deterministic (q a q2 a2 : JSValue) (hq : q = q2) (ha : a = a2) :
    evaluateQuiz q a = evaluateQuiz q2 a2 := by rw [hq, ha]

/-- C6, witness: the theorem at identical concrete inputs. -/
theorem c6_evaluate_deterministic_witness :
    evaluateQuiz (.obj [("questions", .arr [arithmeticQuestion])]) (.arr [.num 1]) =
    evaluateQuiz (.obj [("questions", .arr [arithmeticQuestion])]) (.arr [.num 1]) :=
  c6_evaluate_deterministic _ _ _ _ rfl rfl

/-! ## Claim C7 -/

/-- C7: evaluating any quiz (questions being objects whose `options`, as the
data model requires, is not itself a plain object) against an answer list all
of whose elements are the absence value `undefined` yields score 0 and one
feedback entry per question, each with `userAnswer` equal to the placeholder
string `"No answer provided"`. -/
theorem c7_unanswered_score_zero_placeholders (qs l : List JSValue)
    (hq : ∀ q ∈ qs, questionLike q) (hl : ∀ x ∈ l, x = .undefined) :
    ∃ fbs, evaluateQuiz (.obj [("questions", .arr qs)]) (.arr l) = .ok ⟨0, qs.length, fbs⟩ ∧
      fbs.length = qs.length ∧ ∀ fb ∈ fbs, fb.userAnswer = .str "No answer provided" := by
  obtain ⟨fbs, hrl, hlen, hfb⟩ := runLoop_unanswered l hl 0 qs hq
  refine ⟨fbs, ?_, hlen, hfb⟩
  have hqk : strKeyGet (.obj [("questions", .arr qs)]) "questions" = .arr qs := by
    simp only [strKeyGet]; exact objLookup_cons_hit _ _ _
  simp only [evaluateQuiz, JSValue.truthy, Bool.not_true, Bool.or_self, if_false, hqk,
    jsOr_of_truthy _ (show (JSValue.arr qs).truthy = true from rfl), hrl]
  simp

/-- C7, witness: the theorem at a one-question quiz and an all-`undefined`
answer list. -/
theorem c7_unanswered_score_zero_placeholders_witness :
    ∃ fbs, evaluateQuiz
        (.obj [("questions", .arr [.obj [("options", .arr [.str "a", .str "b"])]])])
        (.arr [.undefined, .undefined]) = .ok ⟨0, 1, fbs⟩ ∧
      fbs.length = 1 ∧ ∀ fb ∈ fbs, fb.userAnswer = .str "No answer provided" := by
  have h := c7_unanswered_score_zero_placeholders
    [.obj [("options", .arr [.str "a", .str "b"])]]
    [.undefined, .undefined]
    (by
      intro q hq
      rw [List.mem_singleton] at hq
      subst hq
      refine ⟨⟨_, rfl⟩, ?_⟩
      intro f2 h2
      have hx : strKeyGet (.obj [("options", JSValue.arr [.str "a", .str "b"])]) "options" =
          .arr [.str "a", .str "b"] := rfl
      rw [hx] at h2
      simp at h2)
    (by
      intro x hx
      rcases List.mem_cons.1 hx with h | h
      · exact h
      · simpa using h)
  exact h

/-! ## Claim C8 -/

/-- C8: the spec's concrete scenarios — the one-question quiz about 2+2 with
answer `[1]` yields exactly score 1 of 1 with the correct feedback entry, and
with answer `[2]` yields an incorrect entry with `userAnswer` "5" and
`correctAnswer` "4". -/
theorem c8_concrete_scenarios :
    evaluateQuiz (.obj [("questions", .arr [arithmeticQuestion])]) (.arr [.num 1]) =
      .ok ⟨1, 1, [⟨.str "2+2?", .str "4", .str "4", true, .str "Basic arithmetic"⟩]⟩ ∧
    evaluateQuiz (.obj [("questions", .arr [arithmeticQuestion])]) (.arr [.num 2]) =
      .ok ⟨0, 1, [⟨.str "2+2?", .str "5", .str "4", false, .str "Basic arithmetic"⟩]⟩ :=
  ⟨rfl, rfl⟩

/-! ## Claim C9 -/

/-- C9: whenever the credential is absent or placeholder-valued (the guard of
server.js line 27), the generate operation answers the configuration error —
whose message differs from both runtime generation failure messages — and the
result does not depend on the external call's outcome at all, so the external
service is never consulted. -/
theorem c9_config_guard_preflight (apiKey : Option String) (outcome : AxiosOutcome)
    (jsonParse : JSValue → Option JSValue) (h : apiKeyInvalid apiKey = true) :
    generateQuiz apiKey outcome jsonParse = .errorResponse 500 configErrorMsg ∧
    configErrorMsg ≠ genericFailureMsg ∧ configErrorMsg ≠ invalidKeyMsg := by
  refine ⟨?_, by decide, by decide⟩
  simp [generateQuiz, h]

/-- C9, witness: the theorem with the credential absent and a transport
failure outcome. -/
theorem c9_config_guard_preflight_witness :
    generateQuiz none .networkError (fun _ => none) = .errorResponse 500 configErrorMsg ∧
    configErrorMsg ≠ genericFailureMsg ∧ configErrorMsg ≠ invalidKeyMsg :=
  c9_config_guard_preflight none .networkError (fun _ => none) rfl

/-! ## Claim C10 -/

/-- C10: when the option text at the learner's in-range index is the empty
string, the feedback says "No answer provided"; when the correct option's
text is the empty string, it says "Correct answer missing"; and an
empty-string `explanation` is reported as "No explanation provided." — the
placeholders substitute for any falsy resolved value, not only absence. -/
theorem c10_falsy_text_placeholders (fields : List (String × JSValue))
    (opts : List JSValue) (i c : Nat)
    (hopts : objLookup fields "options" = .arr opts)
    (hci : objLookup fields "correctIndex" = .num (c : Int))
    (hexp : objLookup fields "explanation" = .str "")
    (hui : opts.getD i .undefined = .str "")
    (hcio : opts.getD c .undefined = .str "") :
    ∃ s fb, evaluateQuiz (.obj [("questions", .arr [.obj fields])]) (.arr [.num (i : Int)]) =
        .ok ⟨s, 1, [fb]⟩ ∧
      fb.userAnswer = .str "No answer provided" ∧
      fb.correctAnswer = .str "Correct answer missing" ∧
      fb.explanation = .str "No explanation provided." := by
  have hua : natIdxGet (.arr [JSValue.num (i : Int)]) 0 = .num (i : Int) := rfl
  have hor : (objLookup fields "options").jsOr (.arr []) = .arr opts := by
    rw [hopts]; exact jsOr_of_truthy _ rfl
  have hcr : (objLookup fields "correctIndex").jsOr (.num 0) = .num (c : Int) := by
    rw [hci]; exact jsOr_num_zero _
  have hpu : propKeyGet (.arr opts) (.num (i : Int)) = .str "" := by
    simp only [propKeyGet]
    rw [if_pos (Int.natCast_nonneg i)]
    simp only [natIdxGet, Int.toNat_natCast]
    exact hui
  have hpc : propKeyGet (.arr opts) (.num (c : Int)) = .str "" := by
    simp only [propKeyGet]
    rw [if_pos (Int.natCast_nonneg c)]
    simp only [natIdxGet, Int.toNat_natCast]
    exact hcio
  have hsq : ∃ fb, scoreQuestion (.arr [JSValue.num (i : Int)]) 0 (.obj fields) =
      some (fb, (JSValue.num (c : Int)).strictEq (.num (i : Int))) ∧
      fb.userAnswer = .str "No answer provided" ∧
      fb.correctAnswer = .str "Correct answer missing" ∧
      fb.explanation = .str "No explanation provided." := by
    rw [scoreQuestion_obj, hua, hor, hcr, hpu, hpc, hexp]
    exact ⟨_, rfl, rfl, rfl, rfl⟩
  obtain ⟨fb, hsq, hu2, hc2, he2⟩ := hsq
  refine ⟨(if (JSValue.num (c : Int)).strictEq (.num (i : Int)) then 1 else 0) + 0, fb,
    ?_, hu2, hc2, he2⟩
  have hqk : strKeyGet (.obj [("questions", .arr [.obj fields])]) "questions" =
      .arr [.obj fields] := by
    simp only [strKeyGet]; exact objLookup_cons_hit _ _ _
  simp only [evaluateQuiz, JSValue.truthy, Bool.not_true, Bool.or_self, if_false, hqk,
    jsOr_of_truthy _ (show (JSValue.arr [JSValue.obj fields]).truthy = true from rfl)]
  simp only [runLoop, hsq]
  simp

/-- C10, witness: the theorem at a question whose two options are both the
empty string, with `correctIndex` 0, empty explanation, and learner answer 1. -/
theorem c10_falsy_text_placeholders_witness :
    ∃ s fb, evaluateQuiz
        (.obj [("questions", .arr [.obj [("options", .arr [.str "", .str ""]),
          ("correctIndex", .num 0), ("explanation", .str "")]])])
        (.arr [.num 1]) = .ok ⟨s, 1, [fb]⟩ ∧
      fb.userAnswer = .str "No answer provided" ∧
      fb.correctAnswer = .str "Correct answer missing" ∧
      fb.explanation = .str "No explanation provided." :=
  c10_falsy_text_placeholders
    [("options", .arr [.str "", .str ""]), ("correctIndex", .num 0), ("explanation", .str "")]
    [.str "", .str ""] 1 0 rfl rfl rfl rfl rfl

end QuizServer
